import Mathlib

/-
Verification development for the terminal-guru session validator
( src/terminal-guru/scripts/session_validator.py ).

The validator reads a session directory holding up to five artifact files
(metadata.json, environment.txt, locale.txt, typescript, diagnostics.txt),
runs one check per artifact, collects findings into three severity buckets
(issues, warnings, info) and exits with code 1 exactly when the issue
bucket is non-empty.

The definitions below are a shallow embedding of that script:
file contents are values (text as `List Char`, the raw transcript as a
list of byte values `List Nat`), each `check_*` method becomes a pure
function from the artifact value to the findings it appends, and
`validate` concatenates the findings in the order the script appends them.
-/

namespace SessionValidator

/-! ## Text utilities (Python `str` operations used by the script) -/

/-- Python `pat in s` substring test. -/
def hasSub [BEq α] (pat : List α) : List α → Bool
  | [] => pat.isEmpty
  | c :: rest => pat.isPrefixOf (c :: rest) || hasSub pat rest

/-- The text following the first occurrence of `pat` (used for Python
`s.split(pat)[1]`, first half: everything after the first occurrence). -/
def afterFirstSub [BEq α] (pat : List α) : List α → List α
  | [] => []
  | c :: rest =>
    if pat.isPrefixOf (c :: rest) then (c :: rest).drop pat.length
    else afterFirstSub pat rest

/-- Cut at the next occurrence of `pat` (used for Python `s.split(pat)[1]`,
second half: the segment stops at the following occurrence of `pat`). -/
def takeUntilSub [BEq α] (pat : List α) : List α → List α
  | [] => []
  | c :: rest =>
    if pat.isPrefixOf (c :: rest) then []
    else c :: takeUntilSub pat rest

/-- Python `s.split('\n')`. -/
def splitNl : List Char → List (List Char)
  | [] => [[]]
  | c :: rest =>
    if c = '\n' then [] :: splitNl rest
    else
      match splitNl rest with
      | [] => [[c]]
      | l :: ls => (c :: l) :: ls

/-- The characters Python `str.strip()` removes (ASCII whitespace). -/
def pyWs (c : Char) : Bool :=
  c == ' ' || c == '\t' || c == '\n' || c == '\r' || c == '\x0b' || c == '\x0c'

/-- Python `str.strip()`. -/
def pyStrip (l : List Char) : List Char :=
  ((l.dropWhile pyWs).reverse.dropWhile pyWs).reverse

/-! ## UTF-8 decoding (Python `bytes.decode('utf-8')`)

Bytes are modelled as `Nat` values below 256.  `utf8DecodeFrom pos bytes`
is the strict decode: it returns the decoded codepoints, or the byte
offset at which the first ill-formed sequence starts (CPython's
`UnicodeDecodeError.start`).  `utf8ReplaceDecode` is
`decode('utf-8', errors='replace')`: every maximal subpart of an
ill-formed sequence becomes one U+FFFD replacement codepoint. -/

/-- The replacement codepoint U+FFFD. -/
def rc : Nat := 0xFFFD

/-- A valid continuation byte (0x80-0xBF). -/
def validCont (b : Nat) : Bool := 0x80 ≤ b && b < 0xC0

/-- Valid second byte of a 3- or 4-byte sequence led by `b0`; the allowed
range is narrowed for leads 0xE0, 0xED, 0xF0 and 0xF4 exactly as in the
UTF-8 specification (this is what CPython's decoder implements). -/
def cont2ok (b0 b1 : Nat) : Bool :=
  (if b0 = 0xE0 then 0xA0 else if b0 = 0xF0 then 0x90 else 0x80) ≤ b1 &&
  b1 < (if b0 = 0xED then 0xA0 else if b0 = 0xF4 then 0x90 else 0xC0)

/-- Strict UTF-8 decode starting at byte offset `pos`; on failure returns
the offset of the start of the first ill-formed sequence. -/
def utf8DecodeFrom (pos : Nat) : List Nat → Except Nat (List Nat)
  | [] => .ok []
  | b0 :: rest =>
    if b0 < 0x80 then
      (utf8DecodeFrom (pos + 1) rest).map (fun cps => b0 :: cps)
    else if b0 < 0xC2 then .error pos
    else if b0 < 0xE0 then
      match rest with
      | [] => .error pos
      | b1 :: rest1 =>
        if validCont b1 then
          (utf8DecodeFrom (pos + 2) rest1).map
            (fun cps => ((b0 - 0xC0) * 0x40 + (b1 - 0x80)) :: cps)
        else .error pos
    else if b0 < 0xF0 then
      match rest with
      | [] => .error pos
      | b1 :: rest2 =>
        if cont2ok b0 b1 then
          match rest2 with
          | [] => .error pos
          | b2 :: rest3 =>
            if validCont b2 then
              (utf8DecodeFrom (pos + 3) rest3).map
                (fun cps => ((b0 - 0xE0) * 0x1000 + (b1 - 0x80) * 0x40 + (b2 - 0x80)) :: cps)
            else .error pos
        else .error pos
    else if b0 < 0xF5 then
      match rest with
      | [] => .error pos
      | b1 :: rest2 =>
        if cont2ok b0 b1 then
          match rest2 with
          | [] => .error pos
          | b2 :: rest3 =>
            if validCont b2 then
              match rest3 with
              | [] => .error pos
              | b3 :: rest4 =>
                if validCont b3 then
                  (utf8DecodeFrom (pos + 4) rest4).map
                    (fun cps => ((b0 - 0xF0) * 0x40000 + (b1 - 0x80) * 0x1000 +
                                 (b2 - 0x80) * 0x40 + (b3 - 0x80)) :: cps)
                else .error pos
            else .error pos
        else .error pos
    else .error pos

/-- Lossy UTF-8 decode, `errors='replace'`: one U+FFFD per maximal subpart
of an ill-formed sequence. -/
def utf8ReplaceDecode : List Nat → List Nat
  | [] => []
  | b0 :: rest =>
    if b0 < 0x80 then b0 :: utf8ReplaceDecode rest
    else if b0 < 0xC2 then rc :: utf8ReplaceDecode rest
    else if b0 < 0xE0 then
      match rest with
      | [] => [rc]
      | b1 :: rest1 =>
        if validCont b1 then
          ((b0 - 0xC0) * 0x40 + (b1 - 0x80)) :: utf8ReplaceDecode rest1
        else rc :: utf8ReplaceDecode (b1 :: rest1)
    else if b0 < 0xF0 then
      match rest with
      | [] => [rc]
      | b1 :: rest2 =>
        if cont2ok b0 b1 then
          match rest2 with
          | [] => [rc]
          | b2 :: rest3 =>
            if validCont b2 then
              ((b0 - 0xE0) * 0x1000 + (b1 - 0x80) * 0x40 + (b2 - 0x80)) ::
                utf8ReplaceDecode rest3
            else rc :: utf8ReplaceDecode (b2 :: rest3)
        else rc :: utf8ReplaceDecode (b1 :: rest2)
    else if b0 < 0xF5 then
      match rest with
      | [] => [rc]
      | b1 :: rest2 =>
        if cont2ok b0 b1 then
          match rest2 with
          | [] => [rc]
          | b2 :: rest3 =>
            if validCont b2 then
              match rest3 with
              | [] => [rc]
              | b3 :: rest4 =>
                if validCont b3 then
                  ((b0 - 0xF0) * 0x40000 + (b1 - 0x80) * 0x1000 +
                   (b2 - 0x80) * 0x40 + (b3 - 0x80)) :: utf8ReplaceDecode rest4
                else rc :: utf8ReplaceDecode (b3 :: rest4)
            else rc :: utf8ReplaceDecode (b2 :: rest3)
        else rc :: utf8ReplaceDecode (b1 :: rest2)
    else rc :: utf8ReplaceDecode rest

/-! ## Findings and the session data model -/

/-- The three severity buckets the script accumulates
(`self.issues`, `self.warnings`, `self.info`). -/
structure Findings where
  issues : List String
  warnings : List String
  info : List String
deriving Repr, DecidableEq

/-- The parsed shape of `metadata.json` that `check_metadata` reads:
`metadata.get(key, default)` for three keys and two truthiness-tested
flags. -/
structure Meta where
  name : Option String
  description : Option String
  created : Option String
  minimal_config : Bool
  tmux_isolated : Bool
deriving Repr, DecidableEq

/-- The metadata artifact: missing file, file present but
`json.load` raises `JSONDecodeError`, or parsed contents. -/
inductive MetaFile where
  | absent
  | malformed
  | parsed (m : Meta)
deriving Repr, DecidableEq

/-- The typescript artifact: missing file, the read raising an OS-level
exception (caught by the `except Exception` handler), or the raw bytes. -/
inductive TsFile where
  | absent
  | readError (e : String)
  | content (bytes : List Nat)
deriving Repr, DecidableEq

/-- A session directory: one optional artifact per recognized name.
Text files are already-decoded text (`List Char`); the transcript is raw
bytes. -/
structure Session where
  metadataFile : MetaFile
  envFile : Option (List Char)
  localeFile : Option (List Char)
  typescriptFile : TsFile
  diagFile : Option (List Char)

/-! ## check_metadata -/

/-- `check_metadata` (session_validator.py lines 39-61). -/
def checkMetadata : MetaFile → Findings
  | .absent => ⟨["Missing metadata.json file"], [], []⟩
  | .malformed => ⟨["Invalid metadata.json format"], [], []⟩
  | .parsed m =>
    ⟨[], [],
      ["Session: " ++ m.name.getD "unknown",
       "Description: " ++ m.description.getD "N/A",
       "Created: " ++ m.created.getD "unknown"]
      ++ (if m.minimal_config then ["Using minimal configuration"] else [])
      ++ (if m.tmux_isolated then ["Running in isolated tmux session"] else [])⟩

/-! ## check_environment

The script tests raw substrings of the whole file (`'LANG=' not in
env_content or 'UTF-8' not in env_content`), slices the text after the
first `LC_ALL=` occurrence, and runs `re.search(r'TERM=(.+)')`, which
matches at the first occurrence of `TERM=` followed by at least one
non-newline character — wherever that occurrence is, including inside
another variable name such as `COLORTERM`. -/

/-- Model of `re.search(r'TERM=(.+)', content)`: the captured group of the
leftmost match, i.e. the run of non-newline characters after the first
occurrence of `TERM=` that is followed by at least one non-newline
character. -/
def reSearchTerm : List Char → Option (List Char)
  | [] => none
  | c :: rest =>
    if "TERM=".toList.isPrefixOf (c :: rest) then
      let v := ((c :: rest).drop 5).takeWhile (fun ch => ch ≠ '\n')
      if v.isEmpty then reSearchTerm rest else some v
    else reSearchTerm rest

/-- The condition of session_validator.py line 74:
`'LANG=' not in env_content or 'UTF-8' not in env_content`. -/
def langIssueCond (content : List Char) : Bool :=
  !hasSub "LANG=".toList content || !hasSub "UTF-8".toList content

/-- The condition of line 77: `'LC_ALL=' not in env_content or 'UTF-8' not
in env_content.split('LC_ALL=')[1].split('\n')[0]`. -/
def lcAllWarnCond (content : List Char) : Bool :=
  !hasSub "LC_ALL=".toList content ||
  !hasSub "UTF-8".toList
    ((takeUntilSub "LC_ALL=".toList
        (afterFirstSub "LC_ALL=".toList content)).takeWhile (fun ch => ch ≠ '\n'))

/-- The warning message of line 85. -/
def termWarnMsg (v : List Char) : String :=
  "TERM=" ++ v.asString ++ " - consider using 256color variant"

/-- `check_environment` (lines 63-87) on a present file. -/
def envFindings (content : List Char) : Findings :=
  { issues :=
      (if langIssueCond content then ["LANG not set to UTF-8 locale"] else [])
      ++ (match reSearchTerm content with
          | some _ => []
          | none => ["TERM variable not set"]),
    warnings :=
      (if lcAllWarnCond content then ["LC_ALL not set to UTF-8 locale"] else [])
      ++ (match reSearchTerm content with
          | some v =>
              if !hasSub "256color".toList v then [termWarnMsg v] else []
          | none => []),
    info := [] }

/-- `check_environment` (lines 63-87). -/
def checkEnvironment : Option (List Char) → Findings
  | none => ⟨[], ["Missing environment.txt file"], []⟩
  | some content => envFindings content

/-! ## check_locale -/

/-- The per-line filter of session_validator.py line 104: the line
contains `=`, does not contain `UTF-8` anywhere, is not blank, and does
not end with `=`. -/
def localeLineBad (line : List Char) : Bool :=
  hasSub "=".toList line && !hasSub "UTF-8".toList line &&
  !(pyStrip line).isEmpty && !(line.getLast? == some '=')

/-- Line 105: `line.split('=')[0]`, the text before the first `=`. -/
def varNameOf (line : List Char) : List Char :=
  line.takeWhile (fun ch => ch ≠ '=')

/-- The variable names collected by the loop of lines 103-106. -/
def nonUtf8Vars (content : List Char) : List (List Char) :=
  (splitNl (pyStrip content)).filterMap
    (fun line => if localeLineBad line then some (varNameOf line) else none)

/-- The warning message of line 109 (`', '.join(non_utf8)`). -/
def localeWarnMsg (names : List (List Char)) : String :=
  "Non-UTF-8 locale variables: " ++ String.intercalate ", " (names.map List.asString)

/-- `check_locale` (lines 89-109). -/
def checkLocale : Option (List Char) → Findings
  | none => ⟨[], ["Missing locale.txt file"], []⟩
  | some content =>
    let names := nonUtf8Vars content
    ⟨[], if names.isEmpty then [] else [localeWarnMsg names], []⟩

/-! ## check_typescript_issues -/

/-- Byte values of the control sequence `'\x1b[?1049h'` (line 137). -/
def altScreenH : List Nat := [27, 91, 63, 49, 48, 52, 57, 104]

/-- Byte values of the control sequence `'\x1b[?1049l'` (line 137). -/
def altScreenL : List Nat := [27, 91, 63, 49, 48, 52, 57, 108]

/-- Membership in the box-drawing character class of line 141
(`[┌┐└┘├┤┬┴┼─│╔╗╚╝╠╣╦╩╬═║]`). -/
def isBoxChar (c : Nat) : Bool :=
  c ∈ [0x250C, 0x2510, 0x2514, 0x2518, 0x251C, 0x2524, 0x252C, 0x2534,
       0x253C, 0x2500, 0x2502, 0x2554, 0x2557, 0x255A, 0x255D, 0x2560,
       0x2563, 0x2566, 0x2569, 0x256C, 0x2550, 0x2551]

/-- Membership in the character class of the emoji pattern of lines
146-156; note the class includes the ranges `✂-➰` and
`Ⓜ-\U0001F251` exactly as written in the source. -/
def emojiChar (c : Nat) : Bool :=
  (0x1F600 ≤ c && c ≤ 0x1F64F) || (0x1F300 ≤ c && c ≤ 0x1F5FF) ||
  (0x1F680 ≤ c && c ≤ 0x1F6FF) || (0x1F1E0 ≤ c && c ≤ 0x1F1FF) ||
  (0x2702 ≤ c && c ≤ 0x27B0) || (0x24C2 ≤ c && c ≤ 0x1F251)

/-- Membership in the CJK character class of line 162. -/
def cjkChar (c : Nat) : Bool :=
  (0x4E00 ≤ c && c ≤ 0x9FFF) || (0x3040 ≤ c && c ≤ 0x309F) ||
  (0x30A0 ≤ c && c ≤ 0x30FF) || (0xAC00 ≤ c && c ≤ 0xD7AF)

/-- Helper for `countRuns`: `inRun` records whether the previous
codepoint satisfied `p`. -/
def countRunsAux (p : Nat → Bool) (inRun : Bool) : List Nat → Nat
  | [] => 0
  | c :: rest =>
    if p c then (if inRun then 0 else 1) + countRunsAux p true rest
    else countRunsAux p false rest

/-- `len(re.findall(r'[class]+', text))`: the number of maximal runs of
codepoints satisfying `p`. -/
def countRuns (p : Nat → Bool) (text : List Nat) : Nat :=
  countRunsAux p false text

/-- Number of U+FFFD codepoints in the text (`text.count('�')`,
line 132). -/
def countFFFD (text : List Nat) : Nat := text.count 0xFFFD

/-- The issue message of line 127. -/
def decodeErrMsg (p : Nat) : String :=
  "UTF-8 decode error in typescript at position " ++ toString p

/-- The issue message of line 134. -/
def replMsg (n : Nat) : String :=
  "Found " ++ toString n ++ " replacement characters (�) - encoding issue"

/-- The alternate-screen classifier (lines 137-138). -/
def altFindings (text : List Nat) : List String :=
  if hasSub altScreenH text || hasSub altScreenL text then
    ["Alternate screen buffer used (normal for TUI apps)"]
  else []

/-- The box-drawing classifier (lines 141-143); `re.findall` with a
single-character class returns one match per matching codepoint. -/
def boxFindings (text : List Nat) : List String :=
  let n := text.countP isBoxChar
  if n ≠ 0 then ["Found " ++ toString n ++ " box drawing characters"] else []

/-- The emoji classifier (lines 146-159). -/
def emojiFindings (text : List Nat) : List String :=
  let n := countRuns emojiChar text
  if n ≠ 0 then ["Found " ++ toString n ++ " emoji sequences"] else []

/-- The CJK classifier (lines 162-165). -/
def cjkFindings (text : List Nat) : List String :=
  let n := countRuns cjkChar text
  if n ≠ 0 then ["Found " ++ toString n ++ " CJK character sequences"] else []

/-- The backspace classifier (lines 168-170):
`text.count('\x08') + text.count('\x7f')`, reported only above 10. -/
def bsFindings (text : List Nat) : List String :=
  let n := text.count 8 + text.count 0x7F
  if n > 10 then ["Found " ++ toString n ++ " backspace characters"] else []

/-- The info findings appended by lines 137-170, in source order. -/
def analyzeText (text : List Nat) : List String :=
  altFindings text ++ boxFindings text ++ emojiFindings text ++
  cjkFindings text ++ bsFindings text

/-- The decoded text view the classifiers receive (lines 123-129): the
strict decode if it succeeds, otherwise the lossy re-decode. -/
def decodedText (bytes : List Nat) : List Nat :=
  match utf8DecodeFrom 0 bytes with
  | .ok t => t
  | .error _ => utf8ReplaceDecode bytes

/-- The issues appended by lines 123-134: the first-failure finding when
strict decoding fails, then the replacement-count finding when the text
contains at least one U+FFFD. -/
def decodeIssues (bytes : List Nat) : List String :=
  (match utf8DecodeFrom 0 bytes with
   | .ok _ => []
   | .error p => [decodeErrMsg p])
  ++ (let n := countFFFD (decodedText bytes)
      if n ≠ 0 then [replMsg n] else [])

/-- `check_typescript_issues` (lines 111-173). -/
def checkTypescript : TsFile → Findings
  | .absent => ⟨["Missing typescript file - session may not have been recorded"], [], []⟩
  | .readError e => ⟨[], ["Error analyzing typescript: " ++ e], []⟩
  | .content bytes => ⟨decodeIssues bytes, [], analyzeText (decodedText bytes)⟩

/-! ## check_diagnostics

The color check runs `re.search(r'colors\s+.*:\s*(\d+)', diag_content)`.
The model below implements that pattern's backtracking semantics for
ASCII text: `\s` is the ASCII whitespace class, `\d` the ASCII digits,
`.` matches anything except `'\n'`, and greedy matching prefers the
longest `\s+`, then the rightmost usable `:`. -/

/-- ASCII decimal digit. -/
def isDigitCh (c : Char) : Bool := '0' ≤ c && c ≤ '9'

/-- `\s*(\d+)`: skip whitespace, then read at least one digit; the
captured number. -/
def matchWsDigits (l : List Char) : Option Nat :=
  let l1 := l.dropWhile pyWs
  let ds := l1.takeWhile isDigitCh
  if ds.isEmpty then none
  else some (ds.foldl (fun a c => a * 10 + (c.toNat - 48)) 0)

/-- `.*:\s*(\d+)` with greedy `.*`: try the rightmost `:` reachable
without crossing a newline first. -/
def dotStarColon : List Char → Option Nat
  | [] => none
  | c :: rest =>
    if c = '\n' then none
    else
      match dotStarColon rest with
      | some n => some n
      | none => if c = ':' then matchWsDigits rest else none

/-- `\s+.*:\s*(\d+)` with greedy `\s+`: consume the longest whitespace
run that still lets the remainder match. -/
def wsPlusBody : List Char → Option Nat
  | [] => none
  | c :: rest =>
    if pyWs c then
      match wsPlusBody rest with
      | some n => some n
      | none => dotStarColon rest
    else none

/-- `re.search(r'colors\s+.*:\s*(\d+)', content)`: leftmost occurrence of
`colors` at which the rest of the pattern matches; the captured number. -/
def reSearchColors : List Char → Option Nat
  | [] => none
  | c :: rest =>
    if "colors".toList.isPrefixOf (c :: rest) then
      match wsPlusBody ((c :: rest).drop 6) with
      | some n => some n
      | none => reSearchColors rest
    else reSearchColors rest

/-- `check_diagnostics` (lines 175-197). -/
def checkDiagnostics : Option (List Char) → Findings
  | none => ⟨[], [], ["No diagnostics file available"]⟩
  | some content =>
    ⟨(if hasSub "UTF-8 in environment: No".toList content then
        ["Diagnostics show UTF-8 not in environment"] else [])
     ++ (if hasSub "Terminfo entry exists: No".toList content then
           ["Terminal type not found in terminfo database"] else []),
     (match reSearchColors content with
      | some n =>
          if n < 256 then
            ["Terminal only supports " ++ toString n ++ " colors (recommend 256+)"]
          else []
      | none => []),
     []⟩

/-! ## validate and the exit code -/

/-- `validate` (lines 21-37): run the five checks in order; each appends
to the shared buckets, so each bucket is the concatenation of the checks'
contributions in check order. -/
def validate (s : Session) : Findings :=
  let m := checkMetadata s.metadataFile
  let e := checkEnvironment s.envFile
  let l := checkLocale s.localeFile
  let t := checkTypescript s.typescriptFile
  let d := checkDiagnostics s.diagFile
  ⟨m.issues ++ e.issues ++ l.issues ++ t.issues ++ d.issues,
   m.warnings ++ e.warnings ++ l.warnings ++ t.warnings ++ d.warnings,
   m.info ++ e.info ++ l.info ++ t.info ++ d.info⟩

/-- `main` (line 249): `sys.exit(1 if result['issues'] else 0)`. -/
def exitCode (f : Findings) : Nat := if f.issues.isEmpty then 0 else 1

/-! ## Definitions following the specification's words

These do not embed the source; they formalize phrases of the
specification so that spec and source behaviour can be compared. -/

/-- Follows the spec's words, not the source: the artifact parsed as
newline-delimited `KEY=VALUE` entries, split at the first `=`. -/
def specEnvEntries (content : List Char) : List (List Char × List Char) :=
  (splitNl content).filterMap (fun line =>
    if line.contains '=' then
      some (line.takeWhile (fun c => c ≠ '='),
            (line.dropWhile (fun c => c ≠ '=')).drop 1)
    else none)

/-- The value of the first entry with the given key. -/
def specLookupKey (key : List Char) : List (List Char × List Char) → Option (List Char)
  | [] => none
  | (k, v) :: rest => if k = key then some v else specLookupKey key rest

/-- Follows the spec's words, not the source: the variables of the locale
artifact (parsed as `VAR=VALUE` entries) whose value is non-empty and
lacks the UTF-8 marker. -/
def specLocaleBadVars (content : List Char) : List (List Char) :=
  (splitNl content).filterMap (fun line =>
    if line.contains '=' then
      if !((line.dropWhile (fun c => c ≠ '=')).drop 1).isEmpty &&
         !hasSub "UTF-8".toList ((line.dropWhile (fun c => c ≠ '=')).drop 1) then
        some (line.takeWhile (fun c => c ≠ '='))
      else none
    else none)

/-- Follows the spec's words, not the source: membership in the standard
Unicode emoji blocks the spec names — Emoticons (1F600-1F64F),
Miscellaneous Symbols and Pictographs (1F300-1F5FF), Transport and Map
Symbols (1F680-1F6FF), Regional Indicator Symbols / flags (1F1E6-1F1FF),
Dingbats (2700-27BF), and the enclosed-character blocks: Enclosed
Alphanumerics (2460-24FF), Enclosed CJK Letters and Months (3200-32FF),
Enclosed Alphanumeric Supplement and Enclosed Ideographic Supplement
(1F100-1F2FF). -/
def specEmojiChar (c : Nat) : Bool :=
  (0x1F600 ≤ c && c ≤ 0x1F64F) || (0x1F300 ≤ c && c ≤ 0x1F5FF) ||
  (0x1F680 ≤ c && c ≤ 0x1F6FF) || (0x1F1E6 ≤ c && c ≤ 0x1F1FF) ||
  (0x2700 ≤ c && c ≤ 0x27BF) || (0x2460 ≤ c && c ≤ 0x24FF) ||
  (0x3200 ≤ c && c ≤ 0x32FF) || (0x1F100 ≤ c && c ≤ 0x1F2FF)

/-! ## Concrete artifact values used in the theorems below -/

/-- Environment content whose LANG value lacks UTF-8 while another
variable's value supplies the UTF-8 substring. -/
def c5env : List Char := "LANG=C\nLC_ALL=en_US.UTF-8\n".toList

/-- Environment content with no TERM entry, but whose COLORTERM entry
contains the substring `TERM=`. -/
def c6env : List Char := "COLORTERM=truecolor\n".toList

/-- Locale content whose single entry `OPTS` has the non-empty value
`a=` ending in `=`. -/
def c7loc : List Char := "OPTS=a=".toList

/-- Transcript bytes: the UTF-8 encoding of the single Hiragana codepoint
U+3042. -/
def c8bytes : List Nat := [0xE3, 0x81, 0x82]

/-- A session whose transcript read raises an I/O error while the other
artifacts are healthy or absent. -/
def c9session : Session :=
  ⟨.parsed ⟨none, none, none, false, false⟩, none, none, .readError "read failed", none⟩

/-- An environment dump with UTF-8 locales and a 256-color TERM; it
produces no findings. -/
def cleanEnv : List Char :=
  "LANG=en_US.UTF-8\nLC_ALL=en_US.UTF-8\nTERM=xterm-256color\n".toList

/-- A locale dump whose variables are all UTF-8. -/
def cleanLocale : List Char := "LANG=en_US.UTF-8\nLC_ALL=en_US.UTF-8\n".toList

/-- A diagnostics report with no negative assertions and 256 colors. -/
def cleanDiag : List Char :=
  "UTF-8 in environment: Yes\nTerminfo entry exists: Yes\ncolors      : 256\n".toList

/-- A session with every artifact present and clean except the missing
metadata file. -/
def c10session : Session :=
  ⟨.absent, some cleanEnv, some cleanLocale, .content [104, 105], some cleanDiag⟩

/-- A session directory with no artifact files at all. -/
def sessionEmpty : Session := ⟨.absent, none, none, .absent, none⟩

/-- A session with malformed metadata whose transcript is present and
readable. -/
def c9mSession : Session := ⟨.malformed, none, none, .content [104, 105], none⟩

/-! ## Helper lemmas -/

theorem except_map_eq_error {α β γ : Type} (f : α → β) (x : Except γ α) (p : γ) :
    x.map f = .error p ↔ x = .error p := by
  cases x <;> simp [Except.map]

-- If the strict decode fails anywhere, the lossy decode contains at
-- least one replacement codepoint.
set_option maxRecDepth 4000 in
theorem mem_rc_of_decode_error (l : List Nat) :
    ∀ pos p, utf8DecodeFrom pos l = .error p → rc ∈ utf8ReplaceDecode l := by
  induction l using utf8ReplaceDecode.induct <;> intro pos p h <;>
    rw [utf8DecodeFrom.eq_def] at h <;> rw [utf8ReplaceDecode.eq_def] <;>
    simp only [*, if_true, if_false, ite_true, ite_false, except_map_eq_error] at h ⊢ <;>
    first
      | exact List.mem_cons_self _ _
      | (apply List.mem_cons_of_mem; solve_by_elim)
      | simp at h

theorem string_data_append (a b : String) : (a ++ b).data = a.data ++ b.data := by
  cases a; cases b; rfl

theorem decodeErrMsg_head (p : Nat) : (decodeErrMsg p).data.head? = some 'U' := by
  have e : (decodeErrMsg p).data =
      'U' :: (("TF-8 decode error in typescript at position " : String).data
                ++ (toString p).data) := by
    show (("UTF-8 decode error in typescript at position " : String) ++ toString p).data = _
    rw [string_data_append]
    rfl
  rw [e]
  rfl

theorem replMsg_head (n : Nat) : (replMsg n).data.head? = some 'F' := by
  have e : (replMsg n).data =
      'F' :: ((("ound " : String).data ++ (toString n).data)
                ++ (" replacement characters (�) - encoding issue" : String).data) := by
    show ((("Found " : String) ++ toString n) ++ " replacement characters (�) - encoding issue").data = _
    rw [string_data_append, string_data_append]
    rfl
  rw [e]
  rfl

theorem termWarnMsg_head (v : List Char) : (termWarnMsg v).data.head? = some 'T' := by
  have e : (termWarnMsg v).data =
      'T' :: ((("ERM=" : String).data ++ v.asString.data)
                ++ (" - consider using 256color variant" : String).data) := by
    show ((("TERM=" : String) ++ v.asString) ++ " - consider using 256color variant").data = _
    rw [string_data_append, string_data_append]
    rfl
  rw [e]
  rfl

theorem string_ne_of_head {a b : String} (h : a.data.head? ≠ b.data.head?) : a ≠ b :=
  fun e => h (congrArg (fun s => s.data.head?) e)

theorem decodeErrMsg_ne_replMsg (p n : Nat) : decodeErrMsg p ≠ replMsg n :=
  string_ne_of_head (by rw [decodeErrMsg_head, replMsg_head]; decide)

theorem termWarnMsg_ne_lcAll (v : List Char) :
    termWarnMsg v ≠ "LC_ALL not set to UTF-8 locale" :=
  string_ne_of_head (by rw [termWarnMsg_head]; decide)

theorem exitCode_eq_one_of_mem {f : Findings} {m : String} (h : m ∈ f.issues) :
    exitCode f = 1 := by
  cases hi : f.issues with
  | nil => rw [hi] at h; cases h
  | cons a l => simp [exitCode, hi]

theorem filterMap_ite_eq_filter_map {α β : Type} (p : α → Bool) (f : α → β) (l : List α) :
    l.filterMap (fun a => if p a then some (f a) else none) = (l.filter p).map f := by
  induction l with
  | nil => rfl
  | cons a l ih => by_cases h : p a <;> simp [List.filterMap_cons, List.filter_cons, h, ih]

/-! ## The claims -/

/-- C1: for every session, the validator exits with code 0 iff the issue
bucket of the produced report is empty, and with code 1 iff it is
non-empty, independent of how many warnings or info findings exist. -/
theorem claim_C1_exit_code (s : Session) :
    (exitCode (validate s) = 0 ↔ (validate s).issues = []) ∧
    (exitCode (validate s) = 1 ↔ (validate s).issues ≠ []) := by
  cases hi : (validate s).issues with
  | nil => simp [exitCode, hi]
  | cons a l => simp [exitCode, hi]

/-- Witness for C1 at a concrete session. -/
theorem claim_C1_witness :
    (exitCode (validate sessionEmpty) = 0 ↔ (validate sessionEmpty).issues = []) ∧
    (exitCode (validate sessionEmpty) = 1 ↔ (validate sessionEmpty).issues ≠ []) :=
  claim_C1_exit_code sessionEmpty

/-- C2: when the transcript artifact is absent, the transcript check
produces exactly one issue finding (about the missing transcript) and no
warnings or info findings, and the run reports failure. -/
theorem claim_C2_missing_transcript (s : Session) (h : s.typescriptFile = .absent) :
    checkTypescript s.typescriptFile =
      ⟨["Missing typescript file - session may not have been recorded"], [], []⟩ ∧
    exitCode (validate s) = 1 := by
  refine ⟨by rw [h]; rfl, ?_⟩
  exact exitCode_eq_one_of_mem
    (m := "Missing typescript file - session may not have been recorded")
    (by simp [validate, h, checkTypescript])

/-- Witness for C2 at a concrete session. -/
theorem claim_C2_witness :
    checkTypescript sessionEmpty.typescriptFile =
      ⟨["Missing typescript file - session may not have been recorded"], [], []⟩ ∧
    exitCode (validate sessionEmpty) = 1 :=
  claim_C2_missing_transcript sessionEmpty rfl

/-- C3: for every byte sequence on which strict UTF-8 decoding fails (at
first invalid offset `p`), the transcript check produces exactly the
first-failure issue citing `p` plus one distinct issue whose count equals
the number of U+FFFD codepoints in the lossy re-decode. -/
theorem claim_C3_decode_findings (bytes : List Nat) (p : Nat)
    (h : utf8DecodeFrom 0 bytes = .error p) :
    (checkTypescript (.content bytes)).issues =
      [decodeErrMsg p, replMsg (countFFFD (utf8ReplaceDecode bytes))] ∧
    decodeErrMsg p ≠ replMsg (countFFFD (utf8ReplaceDecode bytes)) := by
  have hmem : rc ∈ utf8ReplaceDecode bytes := mem_rc_of_decode_error bytes 0 p h
  have hdt : decodedText bytes = utf8ReplaceDecode bytes := by simp [decodedText, h]
  have hcnt : countFFFD (utf8ReplaceDecode bytes) ≠ 0 := by
    have h0 : 0 < List.count rc (utf8ReplaceDecode bytes) := List.count_pos_iff.mpr hmem
    simpa [countFFFD, rc] using Nat.pos_iff_ne_zero.mp h0
  refine ⟨?_, decodeErrMsg_ne_replMsg _ _⟩
  simp [checkTypescript, decodeIssues, h, hdt, hcnt]

/-- Witness for C3 at the bytes `[65, 255]`. -/
theorem claim_C3_witness :
    (checkTypescript (.content [65, 255])).issues =
      [decodeErrMsg 1, replMsg (countFFFD (utf8ReplaceDecode [65, 255]))] ∧
    decodeErrMsg 1 ≠ replMsg (countFFFD (utf8ReplaceDecode [65, 255])) :=
  claim_C3_decode_findings [65, 255] 1 (by rfl)

/-- C4: for every byte sequence that decodes strictly as UTF-8 into text
with zero U+FFFD codepoints, the transcript check adds no issue finding
at all (in particular no encoding-related finding). -/
theorem claim_C4_clean_decode (bytes text : List Nat)
    (h : utf8DecodeFrom 0 bytes = .ok text) (hz : countFFFD text = 0) :
    (checkTypescript (.content bytes)).issues = [] := by
  simp [checkTypescript, decodeIssues, decodedText, h, hz]

/-- Witness for C4 at the bytes `[104, 105]`. -/
theorem claim_C4_witness : (checkTypescript (.content [104, 105])).issues = [] :=
  claim_C4_clean_decode [104, 105] [104, 105] (by rfl) (by rfl)

/-- C5 is false on the code: here the LANG entry's value is `C` (no UTF-8
marker), so the claim demands the LANG issue, but the code checks for the
substring `UTF-8` anywhere in the artifact and another variable supplies
it, so no LANG issue is produced. -/
theorem claim_C5_counterexample :
    specLookupKey "LANG".toList (specEnvEntries c5env) = some "C".toList ∧
    hasSub "UTF-8".toList "C".toList = false ∧
    "LANG not set to UTF-8 locale" ∉ (checkEnvironment (some c5env)).issues :=
  ⟨by decide, by decide, by decide⟩

/-- C5 (amended): the correlator adds the LANG issue iff the artifact
content lacks the substring `LANG=` or lacks the substring `UTF-8`
anywhere in the file — so other variables' values do affect the
decision. -/
theorem claim_C5_amended (content : List Char) :
    "LANG not set to UTF-8 locale" ∈ (checkEnvironment (some content)).issues ↔
      (hasSub "LANG=".toList content = false ∨
       hasSub "UTF-8".toList content = false) := by
  have hne : ("LANG not set to UTF-8 locale" : String) ≠ "TERM variable not set" := by
    decide
  simp only [checkEnvironment, envFindings, List.mem_append]
  cases hL : hasSub "LANG=".toList content <;>
    cases hU : hasSub "UTF-8".toList content <;>
      cases hT : reSearchTerm content <;>
        simp_all [langIssueCond, hne]

/-- Witness for the amended C5. -/
theorem claim_C5_witness :
    "LANG not set to UTF-8 locale" ∈ (checkEnvironment (some "FOO=1".toList)).issues :=
  (claim_C5_amended "FOO=1".toList).mpr (Or.inl (by decide))

/-- C6 is false on the code: here no TERM entry exists (the only entry is
COLORTERM), so the claim demands the `TERM variable not set` issue, but
the regex `TERM=(.+)` matches inside `COLORTERM=truecolor`, so the code
adds no such issue. -/
theorem claim_C6_counterexample :
    specLookupKey "TERM".toList (specEnvEntries c6env) = none ∧
    "TERM variable not set" ∉ (checkEnvironment (some c6env)).issues :=
  ⟨by decide, by decide⟩

/-- C6 (amended): the correlator searches for the first occurrence of
`TERM=` followed by at least one non-newline character anywhere in the
content (possibly inside another variable such as COLORTERM); if the
matched value lacks `256color`, exactly one warning suggesting a
256-color variant is added and no TERM issue; if there is no such
occurrence at all, the `TERM variable not set` issue is added. -/
theorem claim_C6_amended (content : List Char) :
    (∀ v, reSearchTerm content = some v → hasSub "256color".toList v = false →
      ((checkEnvironment (some content)).warnings.count (termWarnMsg v) = 1 ∧
       "TERM variable not set" ∉ (checkEnvironment (some content)).issues)) ∧
    (reSearchTerm content = none →
      "TERM variable not set" ∈ (checkEnvironment (some content)).issues) := by
  constructor
  · intro v hv h256
    constructor
    · simp only [checkEnvironment, envFindings, hv, h256, Bool.not_false, if_true]
      rw [List.count_append]
      have h2 : List.count (termWarnMsg v)
          (if lcAllWarnCond content then ["LC_ALL not set to UTF-8 locale"] else []) = 0 := by
        rw [List.count_eq_zero]
        split
        · simp [termWarnMsg_ne_lcAll v]
        · simp
      rw [h2]
      simp
    · simp only [checkEnvironment, envFindings, hv, List.mem_append]
      intro hmem
      rcases hmem with h | h
      · revert h
        split <;> simp
      · simp at h
  · intro hn
    simp [checkEnvironment, envFindings, hn]

/-- Witness for the amended C6, exercising both branches. -/
theorem claim_C6_witness :
    ((checkEnvironment (some "TERM=xterm\n".toList)).warnings.count
        (termWarnMsg "xterm".toList) = 1 ∧
      "TERM variable not set" ∉ (checkEnvironment (some "TERM=xterm\n".toList)).issues) ∧
    "TERM variable not set" ∈ (checkEnvironment (some "FOO=bar".toList)).issues :=
  ⟨(claim_C6_amended "TERM=xterm\n".toList).1 "xterm".toList (by decide) (by decide),
   (claim_C6_amended "FOO=bar".toList).2 (by decide)⟩

/-- C7 is false on the code: the single entry `OPTS=a=` has the non-empty
value `a=` lacking the UTF-8 marker, so the claim demands a warning
listing OPTS, but the code filters out every line ending in `=` and emits
no warning at all. -/
theorem claim_C7_counterexample :
    specLocaleBadVars c7loc = ["OPTS".toList] ∧
    (checkLocale (some c7loc)).warnings = [] :=
  ⟨by decide, by decide⟩

/-- C7 (amended): the collected names are the prefixes before the first
`=` of exactly those lines of the stripped content that contain `=`, lack
the substring `UTF-8` anywhere in the line, are not blank, and do not end
with `=` (so a non-empty value ending in `=` is skipped, and a line whose
variable name contains `UTF-8` is skipped); all collected names go into
one single warning, with no per-variable findings. -/
theorem claim_C7_amended (content : List Char) :
    nonUtf8Vars content =
      ((splitNl (pyStrip content)).filter localeLineBad).map varNameOf ∧
    (nonUtf8Vars content = [] → (checkLocale (some content)).warnings = []) ∧
    (nonUtf8Vars content ≠ [] →
      (checkLocale (some content)).warnings = [localeWarnMsg (nonUtf8Vars content)]) := by
  refine ⟨filterMap_ite_eq_filter_map _ _ _, ?_, ?_⟩
  · intro h
    simp [checkLocale, h]
  · intro h
    have he : (nonUtf8Vars content).isEmpty = false := by
      cases hn : nonUtf8Vars content with
      | nil => exact absurd hn h
      | cons a l => rfl
    simp [checkLocale, he]

/-- Witness for the amended C7, exercising both branches. -/
theorem claim_C7_witness :
    (checkLocale (some c7loc)).warnings = [] ∧
    (checkLocale (some "A=1".toList)).warnings =
      [localeWarnMsg (nonUtf8Vars "A=1".toList)] :=
  ⟨(claim_C7_amended c7loc).2.1 (by decide),
   (claim_C7_amended "A=1".toList).2.2 (by decide)⟩

/-- C8 is false on the code: the decoded transcript is the single
Hiragana codepoint U+3042, which lies in none of the standard emoji
blocks the claim names, yet the code's character class (whose last range
spans U+24C2-U+1F251) counts it and reports one emoji sequence. -/
theorem claim_C8_counterexample :
    (∀ c ∈ decodedText c8bytes, specEmojiChar c = false) ∧
    "Found 1 emoji sequences" ∈ (checkTypescript (.content c8bytes)).info :=
  ⟨by decide, by decide⟩

/-- C8 (amended): the emoji classifier counts contiguous runs of
codepoints from the ranges 1F600-1F64F, 1F300-1F5FF, 1F680-1F6FF,
1F1E0-1F1FF, 2702-27B0 and 24C2-1F251 (the last spanning far beyond the
enclosed-characters blocks, also covering e.g. box drawing and CJK); it
adds exactly one info finding with the run count when the count is
positive, and none otherwise. -/
theorem claim_C8_amended (bytes : List Nat) :
    (countRuns emojiChar (decodedText bytes) ≠ 0 →
      (checkTypescript (.content bytes)).info =
        altFindings (decodedText bytes) ++ boxFindings (decodedText bytes) ++
        ["Found " ++ toString (countRuns emojiChar (decodedText bytes)) ++
         " emoji sequences"] ++
        cjkFindings (decodedText bytes) ++ bsFindings (decodedText bytes)) ∧
    (countRuns emojiChar (decodedText bytes) = 0 →
      (checkTypescript (.content bytes)).info =
        altFindings (decodedText bytes) ++ boxFindings (decodedText bytes) ++
        cjkFindings (decodedText bytes) ++ bsFindings (decodedText bytes)) := by
  constructor <;> intro h <;> simp [checkTypescript, analyzeText, emojiFindings, h]

/-- Witness for the amended C8. -/
theorem claim_C8_witness :
    (checkTypescript (.content c8bytes)).info =
      altFindings (decodedText c8bytes) ++ boxFindings (decodedText c8bytes) ++
      ["Found " ++ toString (countRuns emojiChar (decodedText c8bytes)) ++
       " emoji sequences"] ++
      cjkFindings (decodedText c8bytes) ++ bsFindings (decodedText c8bytes) :=
  (claim_C8_amended c8bytes).1 (by decide)

/-- C9 is false on the code for the transcript half: a session whose
transcript read fails irrecoverably produces no issue finding at all —
the error message lands in the warning bucket and the run succeeds. -/
theorem claim_C9_counterexample :
    (validate c9session).issues = [] ∧
    "Error analyzing typescript: read failed" ∈ (validate c9session).warnings ∧
    exitCode (validate c9session) = 0 :=
  ⟨by decide, by decide, by decide⟩

/-- C9 (amended): for every session, malformed structured metadata is
surfaced as an issue-severity finding, and an irrecoverable transcript
analysis failure is surfaced as a warning-severity finding — each
assertion holding independently, whatever the state of the other
artifacts; and in all cases every artifact is still analyzed: each
severity bucket of the report is the concatenation of all five checks'
contributions. -/
theorem claim_C9_amended (s : Session) :
    (s.metadataFile = .malformed →
      "Invalid metadata.json format" ∈ (validate s).issues) ∧
    (∀ e, s.typescriptFile = .readError e →
      ("Error analyzing typescript: " ++ e) ∈ (validate s).warnings) ∧
    (validate s).issues =
      (checkMetadata s.metadataFile).issues ++ (checkEnvironment s.envFile).issues ++
      (checkLocale s.localeFile).issues ++ (checkTypescript s.typescriptFile).issues ++
      (checkDiagnostics s.diagFile).issues ∧
    (validate s).warnings =
      (checkMetadata s.metadataFile).warnings ++ (checkEnvironment s.envFile).warnings ++
      (checkLocale s.localeFile).warnings ++ (checkTypescript s.typescriptFile).warnings ++
      (checkDiagnostics s.diagFile).warnings := by
  refine ⟨?_, ?_, rfl, rfl⟩
  · intro hm
    simp [validate, hm, checkMetadata]
  · intro e ht
    simp [validate, ht, checkTypescript]

/-- Witness for the amended C9, exercising each branch on its own: the
metadata issue at a session whose transcript is readable, and the
transcript warning at a session whose metadata is well-formed. -/
theorem claim_C9_witness :
    "Invalid metadata.json format" ∈ (validate c9mSession).issues ∧
    ("Error analyzing typescript: " ++ "read failed") ∈ (validate c9session).warnings :=
  ⟨(claim_C9_amended c9mSession).1 rfl,
   (claim_C9_amended c9session).2.1 "read failed" rfl⟩

/-- C10: when the metadata artifact is absent, an issue-severity finding
for the missing metadata is added, so the session reports failure (exit
code 1) — the same blocking severity as a missing transcript. -/
theorem claim_C10_missing_metadata (s : Session) (h : s.metadataFile = .absent) :
    "Missing metadata.json file" ∈ (validate s).issues ∧
    exitCode (validate s) = 1 := by
  have hmem : "Missing metadata.json file" ∈ (validate s).issues := by
    simp [validate, h, checkMetadata]
  exact ⟨hmem, exitCode_eq_one_of_mem hmem⟩

/-- Witness for C10 at a session whose other artifacts are present and
clean. -/
theorem claim_C10_witness :
    "Missing metadata.json file" ∈ (validate c10session).issues ∧
    exitCode (validate c10session) = 1 :=
  claim_C10_missing_metadata c10session rfl

end SessionValidator
